import Mathlib

/-!
Verification of the snake game core (`src/game.rs`).

The file embeds the game's data model and per-tick logic as executable Lean
definitions and proves (or refutes) the specified properties about them.

The repository ships only `src/game.rs`; the `snake`, `point`, `direction`
and `command` modules it imports are absent, so those leaf types are
modelled from the specification (each such definition says so in its doc
comment).  Unsigned 16-bit coordinates and counters are embedded as `Nat`;
where the Rust code subtracts (and could underflow) a checked variant makes
the underflow explicit.  I/O (terminal, rendering, key polling) is outside
the model; the key event already decoded is the model's input.
-/

/-- Tick interval upper bound in milliseconds, `MAX_INTERVAL` (game.rs:10). -/
def MAX_INTERVAL : Nat := 700

/-- Tick interval lower bound in milliseconds, `MIN_INTERVAL` (game.rs:11). -/
def MIN_INTERVAL : Nat := 200

/-- Maximum speed level, `MAX_SPEED` (game.rs:12). -/
def MAX_SPEED : Nat := 20

/-- Modelled from the spec: `Direction` (module `direction` is not under
`src/`): one of four cardinal directions. -/
inductive Direction where
  | Up
  | Right
  | Down
  | Left
deriving DecidableEq, Repr

/-- Modelled from the spec: `opposite` is total and pure, forming the two
disjoint pairs Up/Down and Left/Right.  `game.rs:69` reads it as
`direction.opposite`. -/
def Direction.opposite : Direction → Direction
  | .Up => .Down
  | .Right => .Left
  | .Down => .Up
  | .Left => .Right

/-- Modelled from the spec: `Point` (module `point` is not under `src/`), an
integer 2D coordinate.  Rust uses `u16`; coordinates are embedded as `Nat`. -/
structure Point where
  x : Nat
  y : Nat
deriving DecidableEq, Repr

/-- Modelled from the spec: `transform` translates a point by `distance`
cells along a direction's unit vector (Up: y-1, Down: y+1, Left: x-1,
Right: x+1).  `Nat` subtraction truncates at 0 where `u16` would underflow;
the game only calls it on heads that passed the wall check, where no
subtraction at 0 occurs. -/
def Point.transform (p : Point) (d : Direction) (distance : Nat) : Point :=
  match d with
  | .Up => ⟨p.x, p.y - distance⟩
  | .Right => ⟨p.x + distance, p.y⟩
  | .Down => ⟨p.x, p.y + distance⟩
  | .Left => ⟨p.x - distance, p.y⟩

/-- Modelled from the spec: `Snake` (module `snake` is not under `src/`), an
ordered body of points (head first) plus the current heading. -/
structure Snake where
  body : List Point
  direction : Direction
deriving DecidableEq, Repr

/-- Modelled from the spec: `Snake::new(head, length, heading)` builds a body
of `length` points extending backward from the head opposite to the heading. -/
def Snake.new (head : Point) (length : Nat) (d : Direction) : Snake :=
  ⟨(List.range length).map (fun i => head.transform d.opposite i), d⟩

/-- Modelled from the spec: head is the first body point.  The body is never
empty after construction; the default is never read by the game. -/
def Snake.get_head_point (s : Snake) : Point :=
  s.body.headD ⟨0, 0⟩

/-- Modelled from the spec: read accessor for the body. -/
def Snake.get_body_points (s : Snake) : List Point :=
  s.body

/-- Modelled from the spec: read accessor for the heading. -/
def Snake.get_direction (s : Snake) : Direction :=
  s.direction

/-- Modelled from the spec: `set_direction` unconditionally overwrites the
heading; validation is the caller's job (game.rs:69). -/
def Snake.set_direction (s : Snake) (d : Direction) : Snake :=
  { s with direction := d }

/-- Modelled from the spec: `contains_point` tests body membership. -/
def Snake.contains_point (s : Snake) (p : Point) : Bool :=
  decide (p ∈ s.body)

/-- Modelled from the spec: `slither` prepends the translated head and drops
the last body element; net length unchanged. -/
def Snake.slither (s : Snake) : Snake :=
  { s with body := (s.get_head_point.transform s.direction 1) :: s.body.dropLast }

/-- Modelled from the spec: `grow` is `slither` without removing the last
element; net length +1. -/
def Snake.grow (s : Snake) : Snake :=
  { s with body := (s.get_head_point.transform s.direction 1) :: s.body }

/-- `Command` (game.rs:63-73 usage; module `command` is not under `src/`):
quit, or turn toward a direction. -/
inductive Command where
  | Quit
  | Turn (d : Direction)
deriving DecidableEq, Repr

/-- Key codes delivered by the terminal input source, restricted to the
cases `get_command` (game.rs:132-144) distinguishes; every other crossterm
code is collapsed into `Other`. -/
inductive KeyCode where
  | Char (c : Char)
  | Esc
  | Up
  | Right
  | Down
  | Left
  | Other
deriving DecidableEq, Repr

/-- Modifier set attached to a key event (crossterm `KeyModifiers`). -/
structure KeyModifiers where
  control : Bool
  shift : Bool
  alt : Bool
deriving DecidableEq, Repr

/-- The constant `KeyModifiers::CONTROL`: exactly the control modifier. -/
def KeyModifiers.CONTROL : KeyModifiers :=
  ⟨true, false, false⟩

/-- A decoded key event: code plus modifiers (crossterm `KeyEvent`). -/
structure KeyEvent where
  code : KeyCode
  modifiers : KeyModifiers
deriving DecidableEq, Repr

/-- The game state `Game` (game.rs:15-24) without the I/O handles
(`stdout`, `original_terminal_size`).  The `done` flag of `run` is a local
variable there and is threaded separately in the loop model below. -/
structure Game where
  width : Nat
  height : Nat
  food : Option Point
  snake : Snake
  speed : Nat
  score : Nat
deriving DecidableEq, Repr

/-- `Game::calculate_interval` (game.rs:122-127), in milliseconds.  All
intermediate values stay below 2^16, so `Nat` agrees with the `u16`
arithmetic whenever `speed ≤ MAX_SPEED`; the `MAX_SPEED - speed` truncates
at 0 where the `u16` code would underflow. -/
def calculate_interval (speed : Nat) : Nat :=
  MIN_INTERVAL + ((MAX_INTERVAL - MIN_INTERVAL) / MAX_SPEED) * (MAX_SPEED - speed)

/-- `Game::get_command` (game.rs:129-145) after the key event has been
received.  The polling itself (`wait_for_key_event`) is I/O and outside the
model; `none` from polling yields no command.  As written the source has two
evident typos (`KeyCode::('C')` for `KeyCode::Char('C')` and a missing comma
after the `'c'`/`'C'` arm); the match structure is otherwise literal.  Note
the source has no arm for `KeyCode::Left`, which therefore falls through to
the final wildcard. -/
def get_command (key_event : KeyEvent) : Option Command :=
  match key_event.code with
  | .Char 'q' | .Char 'Q' | .Esc => some .Quit
  | .Char 'c' | .Char 'C' =>
    if key_event.modifiers = KeyModifiers.CONTROL then some .Quit else none
  | .Up => some (.Turn .Up)
  | .Right => some (.Turn .Right)
  | .Down => some (.Turn .Down)
  | _ => none

/-- `Game::has_collided_with_wall` (game.rs:159-168).  `width - 1` and
`height - 1` are `Nat` truncated subtraction where the `u16` source would
underflow at 0; `has_collided_with_wall_checked` makes that explicit. -/
def has_collided_with_wall (g : Game) : Bool :=
  let head_point := g.snake.get_head_point
  match g.snake.get_direction with
  | .Up => decide (head_point.y ≤ 0)
  | .Right => decide (g.width - 1 ≤ head_point.x)
  | .Down => decide (g.height - 1 ≤ head_point.y)
  | .Left => decide (head_point.x ≤ 0)

/-- Subtraction that reports `u16` underflow as `none`. -/
def checked_sub (a b : Nat) : Option Nat :=
  if b ≤ a then some (a - b) else none

/-- `has_collided_with_wall` with the two subtractions of game.rs:164-165
made underflow-explicit: `none` exactly when the `u16` subtraction would
underflow (i.e. panic in a debug build). -/
def has_collided_with_wall_checked (g : Game) : Option Bool :=
  let head_point := g.snake.get_head_point
  match g.snake.get_direction with
  | .Up => some (decide (head_point.y ≤ 0))
  | .Right => (checked_sub g.width 1).map (fun m => decide (m ≤ head_point.x))
  | .Down => (checked_sub g.height 1).map (fun m => decide (m ≤ head_point.y))
  | .Left => some (decide (head_point.x ≤ 0))

/-- The cell one step ahead of the head along the heading (game.rs:172). -/
def next_head_point (g : Game) : Point :=
  g.snake.get_head_point.transform g.snake.get_direction 1

/-- `Game::has_bitten_itself` (game.rs:170-178): clone the body, remove the
last element (the tail) and then the first (the head), and test whether the
next head cell is among the remaining segments.  `List.eraseIdx` is total
where `Vec::remove` would panic (empty body), a case the game never
produces. -/
def has_bitten_itself (g : Game) : Bool :=
  let nh := next_head_point g
  let next_body_points := g.snake.get_body_points
  let next_body_points := next_body_points.eraseIdx (next_body_points.length - 1)
  let next_body_points := next_body_points.eraseIdx 0
  decide (nh ∈ next_body_points)

/-- `rand`'s `gen_range(lo, hi)` driven by an explicit value `v` from the
random stream: a value in `[lo, hi)` whenever `lo < hi`.  (`gen_range(0, 0)`
panics in Rust; here `v % 0 = v`, a case the bounds hypotheses exclude.) -/
def gen_range (lo hi v : Nat) : Nat :=
  lo + v % (hi - lo)

/-- The candidate food cell sampled at step `i` of `place_food`
(game.rs:104-106), reading two values from the random stream `rng`. -/
def food_sample (rng : Nat → Nat) (w h i : Nat) : Point :=
  ⟨gen_range 0 w (rng (2 * i)), gen_range 0 h (rng (2 * i + 1))⟩

/-- `Game::place_food`'s rejection-sampling loop (game.rs:102-112) with the
randomness as an explicit stream and the unbounded `loop` as fuel: `none`
means the loop had not yet found a free cell after `fuel` iterations. -/
def place_food_aux (rng : Nat → Nat) (w h : Nat) (s : Snake) : Nat → Nat → Option Point
  | _, 0 => none
  | i, fuel + 1 =>
    let point := food_sample rng w h i
    if s.contains_point point then place_food_aux rng w h s (i + 1) fuel
    else some point

/-- `place_food` from the start of the stream. -/
def place_food (rng : Nat → Nat) (w h : Nat) (s : Snake) (fuel : Nat) : Option Point :=
  place_food_aux rng w h s 0 fuel

/-- Termination of `place_food`'s loop on a given random stream: some finite
number of iterations returns a cell. -/
def place_food_terminates (rng : Nat → Nat) (w h : Nat) (s : Snake) : Prop :=
  ∃ fuel p, place_food_aux rng w h s 0 fuel = some p

/-- The score/speed update on food consumption (game.rs:85-89).  Line 87 as
written (`self.score % ((self.width * self.height) / MAX_SPEED == 0)`) is a
Rust type error (`u16 % bool`); this models the evident intended
parenthesization `self.score % ((self.width * self.height) / MAX_SPEED) == 0`,
checked after the score increment, with no cap on `speed`.  (`Nat` mod 0
yields the dividend where Rust would panic; the claims avoid that case.) -/
def score_speed_on_eat (area score speed : Nat) : Nat × Nat :=
  let score2 := score + 1
  (score2, if score2 % (area / MAX_SPEED) = 0 then speed + 1 else speed)

/-- The turn handling of game.rs:68-72: `towards` is compared against the
direction `d0` captured at the start of the tick (game.rs:58), not against
the snake's current heading. -/
def apply_turn (d0 towards : Direction) (g : Game) : Game :=
  if d0 ≠ towards ∧ d0.opposite ≠ towards then
    { g with snake := g.snake.set_direction towards }
  else g

/-- The collision/move/eat phase run once per inner-loop iteration
(game.rs:76-94).  Returns the new game and whether a collision fired this
iteration (which sets `done` in `run`).  Food relocation (`place_food`,
whose randomness is I/O-threaded) is abstracted as the oracle `pf`. -/
def tick_move (pf : Game → Option Point) (g : Game) : Game × Bool :=
  if has_collided_with_wall g || has_bitten_itself g then (g, true)
  else
    let g1 := { g with snake := g.snake.slither }
    match g1.food with
    | some food_point =>
      if g1.snake.get_head_point = food_point then
        let g2 := { g1 with snake := g1.snake.grow }
        let g3 := { g2 with food := pf g2 }
        let sc := score_speed_on_eat (g3.width * g3.height) g3.score g3.speed
        ({ g3 with score := sc.1, speed := sc.2 }, false)
      else (g1, false)
    | none => (g1, false)

/-- One iteration of the inner `while now.elapsed() < interval` loop
(game.rs:61-95) on state `(game, done)`, given the poll result `ev`
(`none` = poll timed out with no command).  The second component of the
result records a `break` (only `Quit` breaks; a collision merely sets
`done` and the loop keeps polling). -/
def inner_step (pf : Game → Option Point) (d0 : Direction) (st : Game × Bool)
    (ev : Option Command) : (Game × Bool) × Bool :=
  match ev with
  | some Command.Quit => ((st.1, true), true)
  | some (Command.Turn towards) =>
    let g := apply_turn d0 towards st.1
    let m := tick_move pf g
    ((m.1, st.2 || m.2), false)
  | none =>
    let m := tick_move pf st.1
    ((m.1, st.2 || m.2), false)

/-- The inner loop over a finite list of poll results, honoring `break`. -/
def run_tick_aux (pf : Game → Option Point) (d0 : Direction) :
    List (Option Command) → Game × Bool → Game × Bool
  | [], st => st
  | ev :: rest, st =>
    let r := inner_step pf d0 st ev
    if r.2 then r.1 else run_tick_aux pf d0 rest r.1

/-- One tick of `Game::run` (one iteration of the outer `while !done` loop,
game.rs:56-95): capture the heading (game.rs:58), then process the tick's
poll results. -/
def run_tick (pf : Game → Option Point) (evs : List (Option Command))
    (st : Game × Bool) : Game × Bool :=
  run_tick_aux pf (st.1.snake.get_direction) evs st

/-! ## Concrete states used by the theorems below -/

/-- A food-placement oracle for traces in which no food is eaten. -/
def pf_const : Game → Option Point := fun _ => some ⟨0, 0⟩

/-- A 10×10 game whose snake heads Right with its head on the right edge,
so the wall check fires. -/
def wall_tick_game : Game :=
  ⟨10, 10, some ⟨0, 0⟩, ⟨[⟨9, 5⟩, ⟨8, 5⟩, ⟨7, 5⟩], Direction.Right⟩, 0, 0⟩

/-- A 10×10 game with the initial centered snake heading Right. -/
def centered_game : Game :=
  ⟨10, 10, some ⟨0, 0⟩, ⟨[⟨5, 5⟩, ⟨4, 5⟩, ⟨3, 5⟩], Direction.Right⟩, 0, 0⟩

/-! ## Claims -/

/-- C1: on a 5×5 board the threshold `(width*height) / MAX_SPEED` is 1, so
every food consumption increments the speed; after the 21st consumption the
score is 21 and the speed is 21, strictly above `MAX_SPEED` — the update of
game.rs:85-89 has no cap, contradicting the claimed bound
"never exceeding MAX_SPEED". -/
theorem speed_exceeds_max_speed_on_5x5 :
    (fun p : Nat × Nat => score_speed_on_eat (5 * 5) p.1 p.2)^[21] (0, 0) = (21, 21)
    ∧ MAX_SPEED < 21 :=
  ⟨by decide, by decide⟩

/-- C2: in `wall_tick_game` the wall check fires on the first inner-loop
iteration and sets `done` with the snake untouched; but the inner loop keeps
polling, and a `Turn Up` arriving later in the same tick is applied and the
snake slithers — body and heading are mutated after the GameOver transition,
because the collision branch of game.rs:76-77 does not break out of the
polling loop. -/
theorem collision_does_not_stop_tick :
    run_tick pf_const [none] (wall_tick_game, false) = (wall_tick_game, true)
    ∧ (run_tick pf_const [none, some (Command.Turn Direction.Up)]
        (wall_tick_game, false)).2 = true
    ∧ (run_tick pf_const [none, some (Command.Turn Direction.Up)]
        (wall_tick_game, false)).1.snake
        = ⟨[⟨9, 4⟩, ⟨9, 5⟩, ⟨8, 5⟩], Direction.Up⟩
    ∧ (run_tick pf_const [none, some (Command.Turn Direction.Up)]
        (wall_tick_game, false)).1.snake ≠ wall_tick_game.snake :=
  ⟨by decide, by decide, by decide, by decide⟩

/-- C3: `get_command` (game.rs:132-144) maps Up, Right and Down to the
corresponding Turn commands but has no arm for `KeyCode::Left`, which falls
through to the wildcard: a Left key event yields `none`, not
`Some(Turn(Left))`, whatever the modifiers. -/
theorem get_command_left_gives_none :
    get_command ⟨KeyCode.Left, ⟨false, false, false⟩⟩ = none
    ∧ get_command ⟨KeyCode.Left, KeyModifiers.CONTROL⟩ = none
    ∧ get_command ⟨KeyCode.Up, ⟨false, false, false⟩⟩ = some (Command.Turn Direction.Up)
    ∧ get_command ⟨KeyCode.Right, ⟨false, false, false⟩⟩ = some (Command.Turn Direction.Right)
    ∧ get_command ⟨KeyCode.Down, ⟨false, false, false⟩⟩ = some (Command.Turn Direction.Down) :=
  ⟨by decide, by decide, by decide, by decide, by decide⟩

/-- C6 counterexample: starting from `centered_game` (heading Right), the
tick processes `Turn Up` (accepted: heading becomes Up) and then `Turn Left`.
At that point the current heading is Up, and Left is perpendicular to Up
(neither equal to it nor to its opposite), so the claim says Left becomes
the new heading; but game.rs:69 validates against the heading captured at
the start of the tick (Right, whose opposite is Left), so the command is
rejected and the heading stays Up.  No collision or quit occurs (`done`
stays false), so the trace is part of a live session. -/
theorem turn_rejected_against_stale_heading :
    (run_tick pf_const [some (Command.Turn Direction.Up)]
      (centered_game, false)).1.snake.direction = Direction.Up
    ∧ Direction.Left ≠ Direction.Up
    ∧ Direction.Left ≠ Direction.Up.opposite
    ∧ (run_tick pf_const [some (Command.Turn Direction.Up), some (Command.Turn Direction.Left)]
        (centered_game, false)).1.snake.direction = Direction.Up
    ∧ (run_tick pf_const [some (Command.Turn Direction.Up), some (Command.Turn Direction.Left)]
        (centered_game, false)).2 = false :=
  ⟨by decide, by decide, by decide, by decide, by decide⟩

/-- C6 (amended): a processed Turn is validated against the heading `d0`
captured at the start of the tick (game.rs:58): a direction equal to `d0` or
to its opposite leaves the heading unchanged (with no error), any other
direction becomes the new heading.  For the first Turn of a tick `d0` is the
current heading, which recovers the claim in that case. -/
theorem apply_turn_uses_tick_start_heading :
    ∀ (d0 towards : Direction) (g : Game),
      ((towards = d0 ∨ towards = d0.opposite) →
        (apply_turn d0 towards g).snake.direction = g.snake.direction)
      ∧ (towards ≠ d0 → towards ≠ d0.opposite →
        (apply_turn d0 towards g).snake.direction = towards) := by
  intro d0 towards g
  constructor
  · rintro (rfl | rfl)
    · simp [apply_turn]
    · simp [apply_turn]
  · intro h1 h2
    have hcond : d0 ≠ towards ∧ d0.opposite ≠ towards :=
      ⟨fun e => h1 e.symm, fun e => h2 e.symm⟩
    simp [apply_turn, hcond, Snake.set_direction]

/-- Witness for C6's amended theorem at heading Right: `Turn Left` (the
opposite) leaves the heading unchanged, `Turn Up` is adopted. -/
theorem apply_turn_uses_tick_start_heading_witness :
    (apply_turn Direction.Right Direction.Left centered_game).snake.direction
      = centered_game.snake.direction
    ∧ (apply_turn Direction.Right Direction.Up centered_game).snake.direction
      = Direction.Up :=
  ⟨(apply_turn_uses_tick_start_heading Direction.Right Direction.Left centered_game).1
      (Or.inr (by decide)),
   (apply_turn_uses_tick_start_heading Direction.Right Direction.Up centered_game).2
      (by decide) (by decide)⟩

/-- C7: `calculate_interval` computes
`MIN_INTERVAL + ((MAX_INTERVAL - MIN_INTERVAL) / MAX_SPEED) * (MAX_SPEED - s)`
milliseconds, equals 700 at speed 0 and 200 at speed `MAX_SPEED`, and is
strictly decreasing on speeds `0..MAX_SPEED`. -/
theorem calculate_interval_correct :
    (∀ s, s ≤ MAX_SPEED →
      calculate_interval s
        = MIN_INTERVAL + ((MAX_INTERVAL - MIN_INTERVAL) / MAX_SPEED) * (MAX_SPEED - s))
    ∧ calculate_interval 0 = 700
    ∧ calculate_interval MAX_SPEED = 200
    ∧ ∀ s t, s < t → t ≤ MAX_SPEED → calculate_interval t < calculate_interval s := by
  refine ⟨fun s _ => rfl, by decide, by decide, ?_⟩
  intro s t hst ht
  have ht20 : t ≤ 20 := by simpa [MAX_SPEED] using ht
  have e : ∀ u, calculate_interval u = 200 + 25 * (20 - u) := by
    intro u
    norm_num [calculate_interval, MIN_INTERVAL, MAX_INTERVAL, MAX_SPEED]
  rw [e, e]
  omega

/-- Witness for C7 at concrete speeds. -/
theorem calculate_interval_correct_witness :
    calculate_interval 3
      = MIN_INTERVAL + ((MAX_INTERVAL - MIN_INTERVAL) / MAX_SPEED) * (MAX_SPEED - 3)
    ∧ calculate_interval 5 < calculate_interval 4 :=
  ⟨calculate_interval_correct.1 3 (by decide),
   calculate_interval_correct.2.2.2 4 5 (by decide) (by decide)⟩

/-- C8: on a board of width `W ≥ 2`, a snake heading Right with head at
`(W-1, y)` is wall-collided and one with head at `(W-2, y)` is not,
for every `y`, height, and remaining state. -/
theorem wall_boundary_right :
    ∀ (W H y : Nat) (rest : List Point) (f : Option Point) (sp sc : Nat),
      2 ≤ W →
      has_collided_with_wall ⟨W, H, f, ⟨⟨W - 1, y⟩ :: rest, Direction.Right⟩, sp, sc⟩ = true
      ∧ has_collided_with_wall ⟨W, H, f, ⟨⟨W - 2, y⟩ :: rest, Direction.Right⟩, sp, sc⟩
        = false := by
  intro W H y rest f sp sc hW
  constructor
  · simp [has_collided_with_wall, Snake.get_head_point, Snake.get_direction]
  · simp [has_collided_with_wall, Snake.get_head_point, Snake.get_direction]
    omega

/-- Witness for C8 on a 10-wide board. -/
theorem wall_boundary_right_witness :
    has_collided_with_wall ⟨10, 8, none, ⟨[⟨9, 3⟩], Direction.Right⟩, 0, 0⟩ = true
    ∧ has_collided_with_wall ⟨10, 8, none, ⟨[⟨8, 3⟩], Direction.Right⟩, 0, 0⟩ = false :=
  wall_boundary_right 10 8 3 [] none 0 0 (by decide)

/-- A snake occupying three cells of the left edge of a 4×4 board; most of
the board is free. -/
def c5_snake : Snake := ⟨[⟨0, 0⟩, ⟨1, 0⟩, ⟨2, 0⟩], Direction.Left⟩

/-- On the all-zeros random stream every sample of a 4×4 board is the cell
(0,0), which `c5_snake` occupies, so the rejection loop never returns. -/
theorem place_food_aux_const_zero_none (fuel : Nat) :
    ∀ i, place_food_aux (fun _ => 0) 4 4 c5_snake i fuel = none := by
  induction fuel with
  | zero => intro i; rfl
  | succ n ih =>
    intro i
    have hs : c5_snake.contains_point (food_sample (fun _ => 0) 4 4 i) = true := rfl
    simp [place_food_aux, hs, ih]

/-- C5 counterexample: the 4×4 game with `c5_snake` has the free cell
(3,3), yet on the all-zeros random stream `place_food`'s loop runs forever
(every fuel bound returns nothing): a free cell alone does not guarantee
termination, since game.rs:102-112 has no deterministic fallback. -/
theorem place_food_can_livelock_with_free_cell :
    c5_snake.contains_point ⟨3, 3⟩ = false
    ∧ ¬ place_food_terminates (fun _ => 0) 4 4 c5_snake := by
  refine ⟨by decide, ?_⟩
  rintro ⟨fuel, p, h⟩
  rw [place_food_aux_const_zero_none fuel 0] at h
  exact Option.noConfusion h

/-- If the sample at absolute stream index `i + k` is a free cell, the loop
started at index `i` returns within `k + 1` iterations. -/
theorem place_food_aux_hit :
    ∀ (k : Nat) (rng : Nat → Nat) (w h : Nat) (s : Snake) (i : Nat),
      s.contains_point (food_sample rng w h (i + k)) = false →
      ∃ p, place_food_aux rng w h s i (k + 1) = some p := by
  intro k
  induction k with
  | zero =>
    intro rng w h s i hfree
    simp only [Nat.add_zero] at hfree
    exact ⟨food_sample rng w h i, by simp [place_food_aux, hfree]⟩
  | succ n ih =>
    intro rng w h s i hfree
    by_cases hc : s.contains_point (food_sample rng w h i) = true
    · have hfree' : s.contains_point (food_sample rng w h (i + 1 + n)) = false := by
        rw [show i + 1 + n = i + (n + 1) by omega]
        exact hfree
      obtain ⟨p, hp⟩ := ih rng w h s (i + 1) hfree'
      refine ⟨p, ?_⟩
      simp only [place_food_aux, hc, if_true]
      exact hp
    · have hc' : s.contains_point (food_sample rng w h i) = false := by
        revert hc; cases s.contains_point (food_sample rng w h i) <;> simp
      exact ⟨food_sample rng w h i, by simp [place_food_aux, hc']⟩

/-- C5 (amended): `place_food` terminates on every game state and random
stream in which the stream eventually samples a cell not occupied by the
snake's body; the existence of a free cell alone is not enough (see the
counterexample), since the loop has no deterministic fallback. -/
theorem place_food_terminates_of_stream_hit :
    ∀ (rng : Nat → Nat) (w h : Nat) (s : Snake) (n : Nat),
      s.contains_point (food_sample rng w h n) = false →
      place_food_terminates rng w h s := by
  intro rng w h s n hfree
  obtain ⟨p, hp⟩ := place_food_aux_hit n rng w h s 0 (by simpa using hfree)
  exact ⟨n + 1, p, hp⟩

/-- Witness for C5's amended theorem: the constant-3 stream samples the free
cell (3,3) of the 4×4 board at its first step, so placement terminates. -/
theorem place_food_terminates_of_stream_hit_witness :
    c5_snake.contains_point (food_sample (fun _ => 3) 4 4 0) = false
    ∧ place_food_terminates (fun _ => 3) 4 4 c5_snake :=
  ⟨by decide,
   place_food_terminates_of_stream_hit (fun _ => 3) 4 4 c5_snake 0 (by decide)⟩

/-- C9: whenever `place_food`'s loop returns a point (on a board with
positive dimensions, as `gen_range` requires), that point lies within
`[0, width) × [0, height)` and is not contained in the snake's body. -/
theorem place_food_in_bounds_and_free :
    ∀ (rng : Nat → Nat) (w h : Nat) (s : Snake) (fuel i : Nat) (p : Point),
      0 < w → 0 < h →
      place_food_aux rng w h s i fuel = some p →
      p.x < w ∧ p.y < h ∧ s.contains_point p = false := by
  intro rng w h s fuel
  induction fuel with
  | zero => intro i p _ _ hsome; simp [place_food_aux] at hsome
  | succ n ih =>
    intro i p hw hh hsome
    by_cases hc : s.contains_point (food_sample rng w h i) = true
    · exact ih (i + 1) p hw hh (by simpa [place_food_aux, hc] using hsome)
    · have hc' : s.contains_point (food_sample rng w h i) = false := by
        revert hc; cases s.contains_point (food_sample rng w h i) <;> simp
      have hp : p = food_sample rng w h i := by
        simp [place_food_aux, hc'] at hsome
        exact hsome.symm
      subst hp
      refine ⟨?_, ?_, hc'⟩
      · show gen_range 0 w (rng (2 * i)) < w
        simp only [gen_range, Nat.zero_add, Nat.sub_zero]
        exact Nat.mod_lt _ hw
      · show gen_range 0 h (rng (2 * i + 1)) < h
        simp only [gen_range, Nat.zero_add, Nat.sub_zero]
        exact Nat.mod_lt _ hh

/-- Witness for C9: the point the constant-3 stream places on the 4×4 board
with `c5_snake` is in bounds and free. -/
theorem place_food_in_bounds_and_free_witness :
    (⟨3, 3⟩ : Point).x < 4 ∧ (⟨3, 3⟩ : Point).y < 4
    ∧ c5_snake.contains_point ⟨3, 3⟩ = false :=
  place_food_in_bounds_and_free (fun _ => 3) 4 4 c5_snake 1 0 ⟨3, 3⟩
    (by decide) (by decide) (by decide)

/-- Erasing the last index is dropping the last element. -/
theorem eraseIdx_last_eq_dropLast (l : List Point) :
    l.eraseIdx (l.length - 1) = l.dropLast := by
  cases l with
  | nil => rfl
  | cons a t => exact (List.dropLast_eq_eraseIdx (by simp)).symm

/-- Membership in the body with its last entry and then its first entry
removed (the list `has_bitten_itself` searches) is exactly occurrence at an
index strictly between the head and the tail. -/
theorem mem_middle_iff (l : List Point) (p : Point) :
    p ∈ (l.eraseIdx (l.length - 1)).eraseIdx 0
      ↔ ∃ i, 1 ≤ i ∧ i + 1 < l.length ∧ l[i]? = some p := by
  rw [eraseIdx_last_eq_dropLast, List.eraseIdx_zero, ← List.drop_one,
    List.dropLast_eq_take]
  constructor
  · intro hm
    obtain ⟨n, hn⟩ := List.mem_iff_getElem?.mp hm
    rw [List.getElem?_drop] at hn
    have hlt : 1 + n < (l.take (l.length - 1)).length :=
      (List.getElem?_eq_some.mp hn).1
    have hlt' : 1 + n < l.length - 1 := by
      rw [List.length_take] at hlt
      omega
    have hval : l[1 + n]? = some p := by
      rw [List.getElem?_take, if_pos hlt'] at hn
      exact hn
    exact ⟨1 + n, by omega, by omega, hval⟩
  · rintro ⟨i, h1, h2, hv⟩
    apply List.mem_iff_getElem?.mpr
    refine ⟨i - 1, ?_⟩
    rw [List.getElem?_drop, show 1 + (i - 1) = i by omega,
      List.getElem?_take, if_pos (by omega)]
    exact hv

/-- C4: `has_bitten_itself` reports a collision exactly when the cell one
step ahead of the head occurs in the body at an index other than the head's
(0) and the tail's (length-1); in particular a body of length ≥ 4 whose
next head cell is its 3rd body point collides, and a duplicate-free body
whose next head cell is exactly its current tail does not. -/
theorem has_bitten_itself_correct :
    (∀ g : Game, has_bitten_itself g = true ↔
      ∃ i, 1 ≤ i ∧ i + 1 < g.snake.body.length
        ∧ g.snake.body[i]? = some (next_head_point g))
    ∧ (∀ g : Game, 4 ≤ g.snake.body.length →
        g.snake.body[2]? = some (next_head_point g) → has_bitten_itself g = true)
    ∧ (∀ g : Game, g.snake.body.Nodup →
        g.snake.body.getLast? = some (next_head_point g) →
        has_bitten_itself g = false) := by
  have hiff : ∀ g : Game, has_bitten_itself g = true ↔
      ∃ i, 1 ≤ i ∧ i + 1 < g.snake.body.length
        ∧ g.snake.body[i]? = some (next_head_point g) := by
    intro g
    simp only [has_bitten_itself, Snake.get_body_points, decide_eq_true_eq]
    exact mem_middle_iff _ _
  refine ⟨hiff, ?_, ?_⟩
  · intro g h4 h2
    exact (hiff g).mpr ⟨2, by omega, by omega, h2⟩
  · intro g hnd hlast
    cases hb : has_bitten_itself g with
    | false => rfl
    | true =>
      obtain ⟨i, h1, h2, hv⟩ := (hiff g).mp hb
      rw [List.getLast?_eq_getElem?] at hlast
      have hi : i < g.snake.body.length := by omega
      have : i = g.snake.body.length - 1 :=
        List.getElem?_inj hi hnd (by rw [hv, hlast])
      omega

/-- A length-4 body whose next head cell (Left of the head (2,2), i.e.
(1,2)) is its 3rd body point. -/
def bite_hit_game : Game :=
  ⟨10, 10, none, ⟨[⟨2, 2⟩, ⟨5, 5⟩, ⟨1, 2⟩, ⟨7, 7⟩], Direction.Left⟩, 0, 0⟩

/-- A length-4 looped body about to advance onto its own tail cell. -/
def bite_tail_game : Game :=
  ⟨10, 10, none, ⟨[⟨1, 1⟩, ⟨2, 1⟩, ⟨2, 2⟩, ⟨1, 2⟩], Direction.Down⟩, 0, 0⟩

/-- Witness for C4: advancing onto the 3rd body point collides, advancing
onto the vacating tail cell does not. -/
theorem has_bitten_itself_correct_witness :
    has_bitten_itself bite_hit_game = true
    ∧ has_bitten_itself bite_tail_game = false :=
  ⟨has_bitten_itself_correct.2.1 bite_hit_game (by decide) (by decide),
   has_bitten_itself_correct.2.2 bite_tail_game (by decide) (by decide)⟩

/-- C10: with `width ≥ 1` and `height ≥ 1` the checked wall test never
underflows and agrees with `has_collided_with_wall`; the Up and Left
branches hold exactly when the unsigned coordinate is 0; and with
`width = 0` (direction Right) or `height = 0` (direction Down) — dimensions
`Game::new` accepts — the `u16` subtraction underflows (`none`). -/
theorem wall_check_underflow_characterization :
    (∀ g : Game, 1 ≤ g.width → 1 ≤ g.height →
      has_collided_with_wall_checked g = some (has_collided_with_wall g))
    ∧ (∀ g : Game, g.snake.get_direction = Direction.Up →
        (has_collided_with_wall g = true ↔ g.snake.get_head_point.y = 0))
    ∧ (∀ g : Game, g.snake.get_direction = Direction.Left →
        (has_collided_with_wall g = true ↔ g.snake.get_head_point.x = 0))
    ∧ (∀ g : Game, g.width = 0 → g.snake.get_direction = Direction.Right →
        has_collided_with_wall_checked g = none)
    ∧ (∀ g : Game, g.height = 0 → g.snake.get_direction = Direction.Down →
        has_collided_with_wall_checked g = none) := by
  refine ⟨?_, ?_, ?_, ?_, ?_⟩
  · intro g hw hh
    cases hd : g.snake.get_direction <;>
      simp [has_collided_with_wall, has_collided_with_wall_checked, hd,
        checked_sub, hw, hh]
  · intro g hd
    simp [has_collided_with_wall, hd, Nat.le_zero]
  · intro g hd
    simp [has_collided_with_wall, hd, Nat.le_zero]
  · intro g hw hd
    simp [has_collided_with_wall_checked, hd, checked_sub, hw]
  · intro g hh hd
    simp [has_collided_with_wall_checked, hd, checked_sub, hh]

/-- A zero-width game, as `Game::new` would happily construct. -/
def zero_width_game : Game :=
  ⟨0, 5, none, ⟨[⟨0, 0⟩], Direction.Right⟩, 0, 0⟩

/-- Witness for C10: on the 10×10 centered game the checked test agrees with
the unchecked one; on a zero-width board heading Right it underflows. -/
theorem wall_check_underflow_characterization_witness :
    has_collided_with_wall_checked centered_game
      = some (has_collided_with_wall centered_game)
    ∧ has_collided_with_wall_checked zero_width_game = none :=
  ⟨wall_check_underflow_characterization.1 centered_game (by decide) (by decide),
   wall_check_underflow_characterization.2.2.2.1 zero_width_game (by decide)
     (by decide)⟩
